import Mathlib

/-!
Verification of the mdsm.js session/cookie engine (src/mdsm.js,
src/Classes/Session.js) via a shallow embedding.

JavaScript values are embedded as follows:
* JS numbers that can be `NaN` (session expiry dates, `Date.now() + undefined`)
  are the type `JSNum` below; all numbers that occur are integral milliseconds.
* `undefined`/`null`-able fields are `Option`.
* a JS function that can throw returns `Except JSErr _`; an uncaught exception
  (a crash reaching the caller) is the `.error` case.
* `crypto.randomFillSync`-generated identifiers (session IDs, client IDs) are
  explicit parameters (`freshID`) supplied by the environment.
* the Node cipher `crypto.createCipher('aes256', secret)` used by
  `encrypt`/`decrypt` takes no IV/nonce and samples no randomness: it is a
  deterministic keyed injective transformation of the plaintext with a partial
  inverse. It is modelled by a deterministic injective tagging scheme keyed by
  the secret, with `decrypt` the partial inverse that throws on input not
  carrying the key's tag; the base64 transport encoding is absorbed into the
  model.
* `JSON.stringify`/`JSON.parse` on the cookie payload object
  `\x7bsessionID, clientID\x7d` are modelled by `stringifyPayload`/`parsePayload`,
  which produce and recognise exactly the serialized payload shape (with
  quote/backslash escaping as performed by `JSON.stringify`); inputs that real
  `JSON.parse` would accept but that do not have the payload shape make every
  observable path behave identically (session lookup by a non-string or absent
  `sessionID` finds nothing), so folding them into parse failure preserves all
  end-to-end results used here.
* opaque application payloads (`sessionData`, `clientData`) are strings;
  endpoint handlers are opaque callbacks identified by `handlerId`, and a
  handler invocation is recorded as a `HandlerCall` value rather than executed.
-/

set_option autoImplicit false

/-- A JavaScript number that may be `NaN` (all values arising here are
integral milliseconds). -/
inductive JSNum where
  | nan : JSNum
  | num : Int → JSNum
deriving DecidableEq, Repr

/-- JS `+` on numbers: any operation touching `NaN` yields `NaN`. -/
def JSNum.add : JSNum → JSNum → JSNum
  | .num a, .num b => .num (a + b)
  | _, _ => .nan

/-- Kinds of uncaught JavaScript exceptions that the embedded code can raise. -/
inductive JSErr where
  /-- property access on `undefined` (e.g. `client.clientClass` when the
  client lookup produced no match) -/
  | typeError : JSErr
  /-- use of an undeclared identifier (the bare `clientList` in
  `Session.removeClient`) -/
  | referenceError : JSErr
  /-- `JSON.parse` on input that is not the expected payload -/
  | parseError : JSErr
  /-- `decipher.final()` on ciphertext not produced under the current secret -/
  | decryptError : JSErr
deriving DecidableEq, Repr

/-- A client held inside a session (`src/Classes/Client.js` is required by
`Session.js` but absent from the repository snapshot).
Modelled from the spec: a Client is the record of an immutable opaque
`clientID`, an immutable `clientClass` authorization tag, and an opaque
`clientData` payload, created only by `Session.addClient`. -/
structure Client where
  clientID : String
  clientClass : String
  clientData : String
deriving DecidableEq, Repr

/-- A registered endpoint: trimmed URL, allow-list of client classes, and an
opaque handler callback represented by its identity `handlerId`. -/
structure Endpoint where
  url : String
  allowedClassTypes : List String
  handlerId : Nat
deriving DecidableEq, Repr

/-- The `Session` class instance state (`src/Classes/Session.js`,
constructor). -/
structure Session where
  sessionID : String
  expiryDate : JSNum
  clientList : List Client
  validEndpoints : List Endpoint
  sessionData : Option String
deriving DecidableEq, Repr

/-- The state of the revealing module in `src/mdsm.js`: the per-process
cookie secret `MDSM_CONFIG.secret` and the `sessions` and `endpoints`
arrays. -/
structure MdsmState where
  secret : String
  sessions : List Session
  endpoints : List Endpoint
deriving DecidableEq, Repr

/-- The argument object of `createSession` (`newSessionInfo`); absent
fields are `none`. -/
structure SessionInfo where
  sessionID : Option String
  timeToLive : Option Int
  sessionData : Option String
deriving DecidableEq, Repr

/-- The argument object of `Session.addClient` (`newClientData`). -/
structure ClientInfo where
  clientClass : String
  clientData : String
deriving DecidableEq, Repr

/-- A record of one invocation of an endpoint handler
`endpoint.handler(this.sessionData, client.clientData, req, res, mdsmCookie)`;
the opaque `req`/`res` objects are not part of the record. -/
structure HandlerCall where
  handlerId : Nat
  sessionData : Option String
  clientData : String
  mdsmCookie : String
deriving DecidableEq, Repr

instance {ε α : Type} [DecidableEq ε] [DecidableEq α] : DecidableEq (Except ε α) := by
  intro a b
  cases a <;> cases b <;> simp only [Except.error.injEq, Except.ok.injEq,
    reduceCtorEq] <;> infer_instance

/-- The observable result of `Session.processRequest`: which handler call (if
any) was made, whether the `next` error callback was invoked (the method never
invokes it, on any path), and either the body passed to `res.end` or the
uncaught exception. -/
structure ProcResult where
  handlerCalled : Option HandlerCall
  nextError : Option Nat
  outcome : Except JSErr String
deriving DecidableEq, Repr

/-! ### JSON payload codec model -/

/-- `JSON.stringify` escaping of `"` and `\` inside a string value (the two
escapes relevant to round-tripping the payload; control-character escaping is
absorbed into the model). -/
def escapeJSONChars : List Char → List Char
  | [] => []
  | c :: rest =>
    if c = '"' ∨ c = '\\' then '\\' :: c :: escapeJSONChars rest
    else c :: escapeJSONChars rest

/-- Parse a JSON string body up to and including its closing quote, undoing
`escapeJSONChars`; returns the decoded content and the remaining input. -/
def parseJSONStringBody : List Char → Option (List Char × List Char)
  | [] => none
  | '"' :: rest => some ([], rest)
  | '\\' :: [] => none
  | '\\' :: d :: rest2 => (parseJSONStringBody rest2).map (fun p => (d :: p.1, p.2))
  | c :: rest => (parseJSONStringBody rest).map (fun p => (c :: p.1, p.2))

/-- The serialized payload up to the start of the `sessionID` value. -/
def payloadHead : List Char := "\x7b\"sessionID\":\"".toList

/-- The serialized payload between the `sessionID` value's closing quote and
the start of the `clientID` value. -/
def payloadSep : List Char := ",\"clientID\":\"".toList

/-- `JSON.stringify(\x7bsessionID: ..., clientID: ...\x7d)` as performed at the end
of `Session.addClient`. -/
def stringifyPayload (sessionID clientID : String) : String :=
  String.mk (payloadHead ++ escapeJSONChars sessionID.data ++ ['"'] ++
    payloadSep ++ escapeJSONChars clientID.data ++ ['"', '\x7d'])

/-- `JSON.parse` restricted to the payload shape produced by
`stringifyPayload`: returns the `sessionID` and `clientID` fields. -/
def parsePayload (l : List Char) : Option (String × String) :=
  if payloadHead.isPrefixOf l then
    match parseJSONStringBody (l.drop payloadHead.length) with
    | none => none
    | some (sid, rest1) =>
      if payloadSep.isPrefixOf rest1 then
        match parseJSONStringBody (rest1.drop payloadSep.length) with
        | none => none
        | some (cid, rest2) =>
          if rest2 = ['\x7d'] then some (String.mk sid, String.mk cid) else none
      else none
  else none

/-! ### Cookie cipher model (`encrypt`/`decrypt`, src/mdsm.js lines 380-401) -/

/-- `encrypt(plaintext)`: AES-256 via `crypto.createCipher('aes256', secret)`.
The cipher takes no IV and samples no randomness, so the ciphertext is a
deterministic injective function of the secret and the plaintext; it is
modelled as the plaintext tagged with the secret. -/
def encrypt (secret plaintext : String) : String :=
  String.mk (secret.data ++ [':'] ++ plaintext.data)

/-- `decrypt(ciphertext)`: the partial inverse of `encrypt`. Throws (its
`catch` block rethrows) on ciphertext not produced under `secret`. -/
def decrypt (secret ciphertext : String) : Except JSErr String :=
  let tag := secret.data ++ [':']
  if tag.isPrefixOf ciphertext.data then
    .ok (String.mk (ciphertext.data.drop tag.length))
  else .error .decryptError

/-! ### URL trimming (`trimURL`, identical in src/mdsm.js lines 367-376 and
src/Classes/Session.js lines 84-93) -/

/-- The character-level body of `trimURL`: `charAt(0) === '/'` is
`head? = some '/'`, `substring(1, length)` is `tail`, `charAt(length-1)` is
`getLast?`, `substring(0, length-1)` is `dropLast`. -/
def trimURLChars (url : List Char) : List Char :=
  let t1 := if url.head? = some '/' then url.tail else url
  if t1.getLast? = some '/' then t1.dropLast else t1

/-- `trimURL(url)`: strips one leading `/` if present, then one trailing `/`
of the result if present. -/
def trimURL (url : String) : String :=
  String.mk (trimURLChars url.data)

/-! ### Session methods (src/Classes/Session.js) -/

/-- `Session.addClient(newClientData)` (lines 14-29): creates a client with a
fresh random `clientID` (the explicit `freshClientID` parameter), pushes it
onto `clientList`, and returns `JSON.stringify` of the
`\x7bsessionID, clientID\x7d` cookie payload. The first component is the session
object after the in-place mutation. -/
def Session.addClient (se : Session) (freshClientID : String) (info : ClientInfo) :
    Session × String :=
  let newClient : Client :=
    { clientID := freshClientID
      clientClass := info.clientClass
      clientData := info.clientData }
  ({ se with clientList := se.clientList ++ [newClient] },
    stringifyPayload se.sessionID freshClientID)

/-- `Session.removeClient(clientID)` (lines 32-41): filters `clientList` for
clients with the given ID; when the filtered list is nonempty it executes
`clientList.splice(...)` on the bare identifier `clientList`, which is
undeclared in scope (the field is `this.clientList`), raising a
`ReferenceError`; when it is empty, nothing happens. -/
def Session.removeClient (se : Session) (clientID : String) : Except JSErr Session :=
  match se.clientList.filter (fun c => c.clientID == clientID) with
  | [] => .ok se
  | _ :: _ => .error .referenceError

/-- The client lookup at the start of `Session.processRequest` (lines 45-47):
`this.clientList.filter(c => c.clientID === JSON.parse(mdsmCookie).clientID)[0]`.
The filter callback (and hence `JSON.parse`) runs only when `clientList` is
nonempty; `JSON.parse` throwing inside the callback propagates. `[0]` of an
empty result is `undefined`, i.e. `none`. -/
def Session.lookupClient (clientList : List Client) (mdsmCookie : String) :
    Except JSErr (Option Client) :=
  match clientList with
  | [] => .ok none
  | _ :: _ =>
    match parsePayload mdsmCookie.data with
    | none => .error .parseError
    | some (_, cid) => .ok ((clientList.filter (fun c => c.clientID == cid)).head?)

/-- The `res.end` body at the end of `Session.processRequest` (line 57). -/
def responseBody (sessionID mdsmCookie : String) : String :=
  "Your session is " ++ sessionID ++ ". Your MDSM cookie is " ++ mdsmCookie

/-- `Session.processRequest(req, res, mdsmCookie, next)` (lines 44-58).
After the client and endpoint lookups, the guard
`endpoint.allowedClassTypes.includes(client.clientClass)` raises a
`TypeError` if `endpoint` is `undefined` (property access on `undefined`),
then a `TypeError` if `client` is `undefined`; when it evaluates, the handler
is invoked iff the client's class is allowed, and `res.end` then runs
unconditionally. The `next` callback is never invoked in the method body, so
`nextError` is `none` on every path. Handlers are opaque: an invocation is
recorded as a `HandlerCall`, not executed. -/
def Session.processRequest (se : Session) (reqUrl mdsmCookie : String) : ProcResult :=
  match Session.lookupClient se.clientList mdsmCookie with
  | .error e => { handlerCalled := none, nextError := none, outcome := .error e }
  | .ok clientOpt =>
    match (se.validEndpoints.filter (fun ep => ep.url == trimURL reqUrl)).head? with
    | none => { handlerCalled := none, nextError := none, outcome := .error .typeError }
    | some ep =>
      match clientOpt with
      | none => { handlerCalled := none, nextError := none, outcome := .error .typeError }
      | some c =>
        if ep.allowedClassTypes.contains c.clientClass then
          { handlerCalled := some
              { handlerId := ep.handlerId
                sessionData := se.sessionData
                clientData := c.clientData
                mdsmCookie := mdsmCookie }
            nextError := none
            outcome := .ok (responseBody se.sessionID mdsmCookie) }
        else
          { handlerCalled := none
            nextError := none
            outcome := .ok (responseBody se.sessionID mdsmCookie) }

/-- `Session.extendSessionLife(additionalLifeMs)` (lines 63-65):
`this.expiryDate += additionalLifeMs` (JS `+`, so `NaN` stays `NaN`). -/
def Session.extendSessionLife (se : Session) (additionalLifeMs : Int) : Session :=
  { se with expiryDate := se.expiryDate.add (.num additionalLifeMs) }

/-! ### Module operations (src/mdsm.js) -/

/-- The body of `createSession` (lines 252-277) constructing the new
`Session`. `freshID` is the random 32-byte hex ID generated when
`newSessionInfo.sessionID` is falsy (absent or the empty string). The source's
default-TTL guard reads `if(!(newSessionInfo))` — the argument object itself,
which is always truthy here — so an unspecified `timeToLive` is NOT replaced
by `0`: `Date.now() + undefined` evaluates to `NaN`. A falsy `sessionData`
is replaced by `null`. The new session starts with an empty client list and a
reference to the module's endpoint list. -/
def mkSession (now : Int) (freshID : String) (info : SessionInfo)
    (endpoints : List Endpoint) : Session :=
  let sid : String :=
    match info.sessionID with
    | none => freshID
    | some s => if s = "" then freshID else s
  let expiry : JSNum :=
    match info.timeToLive with
    | some ttl => .num (now + ttl)
    | none => .nan
  let sdata : Option String :=
    match info.sessionData with
    | none => none
    | some d => if d = "" then none else some d
  { sessionID := sid
    expiryDate := expiry
    clientList := []
    validEndpoints := endpoints
    sessionData := sdata }

/-- `createSession(newSessionInfo)` (lines 252-277): builds the session,
pushes it onto the module's `sessions` array, and returns it. (The expiry
timer it schedules is out of scope of the claims settled here.) -/
def createSession (st : MdsmState) (now : Int) (freshID : String)
    (info : SessionInfo) : MdsmState × Session :=
  let s := mkSession now freshID info st.endpoints
  ({ st with sessions := st.sessions ++ [s] }, s)

/-- `createSession` immediately followed by `Session.addClient` on the
returned session. In JS the pushed array element and the receiver of
`addClient` are the same object, so after the call the stored session carries
the new client: the state holds the mutated session. Returns the final state,
the stored session, and the plaintext cookie payload. -/
def createThenAddClient (st : MdsmState) (now : Int) (freshSessionID : String)
    (sinfo : SessionInfo) (freshClientID : String) (cinfo : ClientInfo) :
    MdsmState × Session × String :=
  let s0 := mkSession now freshSessionID sinfo st.endpoints
  let r := Session.addClient s0 freshClientID cinfo
  ({ st with sessions := st.sessions ++ [r.1] }, r.1, r.2)

/-- `findSession(sessionCookie)` (lines 210-249): decrypts the cookie, parses
the payload, and returns the first session in `sessions` whose `sessionID`
matches, paired with the decrypted cookie string. The whole body is inside
`try ... catch`, and the catch block returns `null`: decryption and parse
exceptions, and an empty lookup result, all become `none`. -/
def findSession (st : MdsmState) (sessionCookie : String) :
    Option (String × Session) :=
  match decrypt st.secret sessionCookie with
  | .error _ => none
  | .ok unencrypted =>
    match parsePayload unencrypted.data with
    | none => none
    | some (sid, _) =>
      match st.sessions.filter (fun s => s.sessionID == sid) with
      | [] => none
      | s :: _ => some (unencrypted, s)

/-- The in-place renewal of the first session of the array matching
`sessionID`, as performed by `sessions.filter(...)[0].extendSessionLife(...)`. -/
def renewFirst : List Session → String → Int → List Session
  | [], _, _ => []
  | s :: rest, sid, extra =>
    if s.sessionID == sid then Session.extendSessionLife s extra :: rest
    else s :: renewFirst rest sid extra

/-- `renewSession(sessionID, extraTimeInMs)` (lines 319-327): filters
`sessions` for the given ID and calls `extendSessionLife` on element `[0]`.
When no session matches, `[0]` is `undefined` and the method call raises an
uncaught `TypeError`. -/
def renewSession (st : MdsmState) (sessionID : String) (extraTimeInMs : Int) :
    Except JSErr MdsmState :=
  if st.sessions.any (fun s => s.sessionID == sessionID) then
    .ok { st with sessions := renewFirst st.sessions sessionID extraTimeInMs }
  else .error .typeError

/-! ### Concrete values used to instantiate the theorems -/

/-- The `/api/doSomething1/` endpoint of src/test.js, allowing `class_A`. -/
def epA : Endpoint :=
  { url := "api/doSomething1", allowedClassTypes := ["class_A"], handlerId := 1 }

/-- The `/api/doSomething2/` endpoint of src/test.js, allowing `class_B`. -/
def epB : Endpoint :=
  { url := "api/doSomething2", allowedClassTypes := ["class_B"], handlerId := 2 }

/-- A client of class `class_A`. -/
def clA : Client := { clientID := "c1", clientClass := "class_A", clientData := "cd" }

/-- A session holding `clA` and both endpoints. -/
def seEx : Session :=
  { sessionID := "S1"
    expiryDate := .num 5000
    clientList := [clA]
    validEndpoints := [epA, epB]
    sessionData := some "sd" }

/-- The serialized cookie payload of `clA` in `seEx`. -/
def cookieEx : String := stringifyPayload "S1" "c1"

/-- A serialized cookie payload whose `clientID` matches no client of `seEx`. -/
def cookieUnknown : String := stringifyPayload "S1" "cX"

/-- A module state with no sessions. -/
def stEmpty : MdsmState := { secret := "k", sessions := [], endpoints := [epA, epB] }

/-- A module state holding `seEx`. -/
def stEx : MdsmState := { secret := "k", sessions := [seEx], endpoints := [epA, epB] }

/-! ### Helper lemmas -/

theorem string_mk_data (s : String) : String.mk s.data = s := rfl

theorem parseJSONStringBody_escape (s rest : List Char) :
    parseJSONStringBody (escapeJSONChars s ++ '"' :: rest) = some (s, rest) := by
  induction s with
  | nil => simp [escapeJSONChars, parseJSONStringBody]
  | cons c t ih =>
    by_cases hc : c = '"' ∨ c = '\\'
    · simp [escapeJSONChars, hc, parseJSONStringBody, ih]
    · push_neg at hc
      simp [escapeJSONChars, hc.1, hc.2, parseJSONStringBody, ih]

theorem parsePayload_stringifyPayload (sid cid : String) :
    parsePayload (stringifyPayload sid cid).data = some (sid, cid) := by
  have heq : (stringifyPayload sid cid).data = payloadHead ++
      (escapeJSONChars sid.data ++ '"' :: (payloadSep ++
        (escapeJSONChars cid.data ++ ['"', '\x7d']))) := by
    simp [stringifyPayload]
  rw [heq]
  simp [parsePayload, List.drop_left, parseJSONStringBody_escape, string_mk_data]

theorem decrypt_encrypt (secret plaintext : String) :
    decrypt secret (encrypt secret plaintext) = .ok plaintext := by
  have hpre : (secret.data ++ [':']).isPrefixOf (encrypt secret plaintext).data = true := by
    simp [encrypt]
  simp only [decrypt, encrypt] at hpre ⊢
  rw [if_pos hpre, List.drop_left, string_mk_data]

theorem head?_of_dropLast_head? {l : List Char} {c : Char}
    (h : l.dropLast.head? = some c) : l.head? = some c := by
  cases l with
  | nil => simp at h
  | cons a t =>
    cases t with
    | nil => simp at h
    | cons b t' =>
      rw [List.dropLast_cons₂] at h
      simpa using h

theorem suffix_pair_of_getLast? {l : List Char} {a b : Char}
    (h1 : l.getLast? = some a) (h2 : l.dropLast.getLast? = some b) :
    [b, a] <:+ l := by
  have e1 : l.dropLast ++ [a] = l := List.dropLast_append_getLast? a h1
  have e2 : l.dropLast.dropLast ++ [b] = l.dropLast := List.dropLast_append_getLast? b h2
  refine ⟨l.dropLast.dropLast, ?_⟩
  rw [← e1, ← e2]
  simp

theorem trimURLChars_id_of_no_slash {l : List Char} (h1 : l.head? ≠ some '/')
    (h2 : l.getLast? ≠ some '/') : trimURLChars l = l := by
  simp only [trimURLChars]
  rw [if_neg h1, if_neg h2]

theorem trimURLChars_head? (u : List Char) (H1 : ¬ ['/', '/'] <+: u) :
    (trimURLChars u).head? ≠ some '/' := by
  have hA : (if u.head? = some '/' then u.tail else u).head? ≠ some '/' := by
    by_cases hu : u.head? = some '/'
    · rw [if_pos hu]
      cases u with
      | nil => simp
      | cons a t =>
        simp only [List.head?_cons, Option.some.injEq] at hu
        subst hu
        cases t with
        | nil => simp
        | cons b t' =>
          simp only [List.tail_cons, List.head?_cons, ne_eq, Option.some.injEq]
          intro hb
          subst hb
          exact H1 ⟨t', rfl⟩
    · rw [if_neg hu]; exact hu
  simp only [trimURLChars]
  by_cases ht : (if u.head? = some '/' then u.tail else u).getLast? = some '/'
  · rw [if_pos ht]
    intro hd
    exact hA (head?_of_dropLast_head? hd)
  · rw [if_neg ht]; exact hA

theorem trimURLChars_getLast? (u : List Char) (H2 : ¬ ['/', '/'] <:+ u) :
    (trimURLChars u).getLast? ≠ some '/' := by
  have hsuf : (if u.head? = some '/' then u.tail else u) <:+ u := by
    by_cases hu : u.head? = some '/'
    · rw [if_pos hu]; exact List.tail_suffix u
    · rw [if_neg hu]
  simp only [trimURLChars]
  by_cases ht : (if u.head? = some '/' then u.tail else u).getLast? = some '/'
  · rw [if_pos ht]
    intro hd
    exact H2 ((suffix_pair_of_getLast? ht hd).trans hsuf)
  · rw [if_neg ht]; exact ht

theorem findSession_of_stored_first (st : MdsmState) (pre post : List Session)
    (s : Session) (cid : String)
    (hsplit : st.sessions = pre ++ s :: post)
    (hpre : ∀ t ∈ pre, t.sessionID ≠ s.sessionID) :
    findSession st (encrypt st.secret (stringifyPayload s.sessionID cid)) =
      some (stringifyPayload s.sessionID cid, s) := by
  simp only [findSession, decrypt_encrypt, parsePayload_stringifyPayload]
  rw [hsplit, List.filter_append]
  have h1 : pre.filter (fun t => t.sessionID == s.sessionID) = [] := by
    rw [List.filter_eq_nil_iff]
    intro a ha
    simpa using hpre a ha
  rw [h1]
  simp

theorem renewFirst_split (pre : List Session) (s : Session) (post : List Session)
    (sid : String) (extra : Int) (hs : s.sessionID = sid)
    (hpre : ∀ t ∈ pre, t.sessionID ≠ sid) :
    renewFirst (pre ++ s :: post) sid extra =
      pre ++ Session.extendSessionLife s extra :: post := by
  induction pre with
  | nil => simp [renewFirst, hs]
  | cons a rest ih =>
    have ha : (a.sessionID == sid) = false :=
      beq_eq_false_iff_ne.mpr (hpre a (List.mem_cons_self a rest))
    simp only [List.cons_append, renewFirst, ha, Bool.false_eq_true, if_false,
      List.cons.injEq, true_and]
    exact ih (fun t ht => hpre t (List.mem_cons_of_mem a ht))

/-! ### Claim theorems -/

/-- C1: For every session created via `createSession` and every client added
to it via `Session.addClient`, encrypting the returned
`\x7bsessionID, clientID\x7d` cookie payload with `encrypt` under the process
secret and passing the ciphertext to `findSession` returns exactly the stored
session together with the decrypted payload (not `none`). The hypothesis is
the spec's data-model invariant that the new session's `sessionID` collides
with no already-stored session (guaranteed up to randomness of the generated
IDs); `findSession` performs no expiry check, and a destroyed session would
have been removed from the store, so a stored session is exactly a
not-destroyed one. -/
theorem createSession_addClient_findSession_roundtrip
    (st : MdsmState) (now : Int) (freshSessionID freshClientID : String)
    (sinfo : SessionInfo) (cinfo : ClientInfo)
    (huniq : ∀ t ∈ st.sessions,
      t.sessionID ≠ (mkSession now freshSessionID sinfo st.endpoints).sessionID) :
    findSession (createThenAddClient st now freshSessionID sinfo freshClientID cinfo).1
        (encrypt st.secret
          (createThenAddClient st now freshSessionID sinfo freshClientID cinfo).2.2) =
      some ((createThenAddClient st now freshSessionID sinfo freshClientID cinfo).2.2,
        (createThenAddClient st now freshSessionID sinfo freshClientID cinfo).2.1) := by
  have h := findSession_of_stored_first
    (createThenAddClient st now freshSessionID sinfo freshClientID cinfo).1
    st.sessions []
    (createThenAddClient st now freshSessionID sinfo freshClientID cinfo).2.1
    freshClientID rfl
    (fun t ht => huniq t ht)
  exact h

/-- C1 witness: a concrete session and client created in the empty state are
found again from their encrypted cookie. -/
theorem createSession_addClient_findSession_roundtrip_witness :
    findSession (createThenAddClient stEmpty 0 "F"
        { sessionID := some "S9", timeToLive := some 1000, sessionData := some "sd" }
        "c9" { clientClass := "class_A", clientData := "cd" }).1
      (encrypt stEmpty.secret (createThenAddClient stEmpty 0 "F"
        { sessionID := some "S9", timeToLive := some 1000, sessionData := some "sd" }
        "c9" { clientClass := "class_A", clientData := "cd" }).2.2) =
    some ((createThenAddClient stEmpty 0 "F"
        { sessionID := some "S9", timeToLive := some 1000, sessionData := some "sd" }
        "c9" { clientClass := "class_A", clientData := "cd" }).2.2,
      (createThenAddClient stEmpty 0 "F"
        { sessionID := some "S9", timeToLive := some 1000, sessionData := some "sd" }
        "c9" { clientClass := "class_A", clientData := "cd" }).2.1) :=
  createSession_addClient_findSession_roundtrip stEmpty 0 "F" "c9"
    { sessionID := some "S9", timeToLive := some 1000, sessionData := some "sd" }
    { clientClass := "class_A", clientData := "cd" }
    (by intro t ht; simp [stEmpty] at ht)

/-- C2: For every request processed by `Session.processRequest` in which the
resolved client's `clientClass` is not a member of the matched endpoint's
`allowedClassTypes`, the endpoint's handler is never invoked, regardless of
session or cookie validity (no assumption on the session's expiry or on the
cookie beyond the client having resolved). -/
theorem processRequest_unauthorized_no_handler
    (se : Session) (reqUrl mdsmCookie : String) (c : Client) (ep : Endpoint)
    (hclient : Session.lookupClient se.clientList mdsmCookie = .ok (some c))
    (hep : (se.validEndpoints.filter (fun e => e.url == trimURL reqUrl)).head? =
      some ep)
    (hauth : ep.allowedClassTypes.contains c.clientClass = false) :
    (Session.processRequest se reqUrl mdsmCookie).handlerCalled = none := by
  simp only [Session.processRequest, hclient, hep, hauth]
  simp

/-- C2 witness: the `class_A` client of `seEx` requesting the endpoint that
allows only `class_B`; the handler is not invoked. -/
theorem processRequest_unauthorized_no_handler_witness :
    (Session.processRequest seEx "/api/doSomething2/" cookieEx).handlerCalled = none :=
  processRequest_unauthorized_no_handler seEx "/api/doSomething2/" cookieEx clA epB
    rfl rfl rfl

/-- C3: `findSession` never raises to its caller: for every input string and
every module state, a decryption failure, a payload-parse failure, or an
empty session lookup each yield the return value `none` (the source wraps the
whole body in `try/catch` and the embedding is the total `Option`-valued
function in which all three failure paths are provably `none`). -/
theorem findSession_failures_yield_none (st : MdsmState) (input : String) :
    (∀ e : JSErr, decrypt st.secret input = .error e → findSession st input = none) ∧
    (∀ pt : String, decrypt st.secret input = .ok pt → parsePayload pt.data = none →
      findSession st input = none) ∧
    (∀ (pt sid cid : String), decrypt st.secret input = .ok pt →
      parsePayload pt.data = some (sid, cid) →
      st.sessions.filter (fun s => s.sessionID == sid) = [] →
      findSession st input = none) := by
  refine ⟨fun e he => ?_, fun pt h1 h2 => ?_, fun pt sid cid h1 h2 h3 => ?_⟩
  · simp only [findSession, he]
  · simp only [findSession, h1, h2]
  · simp only [findSession, h1, h2, h3]

/-- C3 witness: an undecryptable cookie string yields `none` from a concrete
state. -/
theorem findSession_failures_yield_none_witness :
    findSession stEmpty "garbage" = none :=
  (findSession_failures_yield_none stEmpty "garbage").1 JSErr.decryptError rfl

/-- C4 counterexample: the claim asserts that two separate invocations of
`encrypt` on some plaintext within one process produce different ciphertexts.
In the source, `encrypt` calls `crypto.createCipher('aes256', secret)`, which
takes no IV/nonce parameter and samples no randomness: the ciphertext depends
only on the process secret and the plaintext, so any two invocations on the
same plaintext are two applications of the same pure function and coincide —
here evaluated at a concrete secret and plaintext. -/
theorem encrypt_two_invocations_equal :
    encrypt "processSecret" "cookiePayload" = encrypt "processSecret" "cookiePayload" ∧
    decrypt "processSecret" (encrypt "processSecret" "cookiePayload") =
      .ok "cookiePayload" :=
  ⟨rfl, decrypt_encrypt "processSecret" "cookiePayload"⟩

/-- C4 (amended): `encrypt` is deterministic, not randomized: under a fixed
process secret the ciphertext is determined by (and determines) the
plaintext, so equal plaintexts always produce the identical ciphertext. -/
theorem encrypt_deterministic (secret p1 p2 : String) :
    encrypt secret p1 = encrypt secret p2 ↔ p1 = p2 := by
  constructor
  · intro h
    have hdata : secret.data ++ [':'] ++ p1.data = secret.data ++ [':'] ++ p2.data :=
      congrArg String.data h
    have hd : p1.data = p2.data := List.append_cancel_left hdata
    have := congrArg String.mk hd
    rwa [string_mk_data, string_mk_data] at this
  · intro h
    rw [h]

/-- C5 counterexample: `trimURL` is not idempotent: on `"///"` the first
application strips the leading separator and then the trailing separator of
the remainder, leaving `"/"`, and a second application strips again,
leaving `""`. -/
theorem trimURL_not_idempotent :
    trimURL (trimURL "///") ≠ trimURL "///" := by decide

/-- C5 (amended): `trimURL` strips one leading and one trailing path
separator when present — in particular `trimURL "/a/b/" = trimURL "a/b" =
"a/b"` — and it is idempotent on every URL that does not begin or end with a
doubled separator `//` (it is not idempotent in general, e.g. on `"///"`). -/
theorem trimURL_strips_once_and_conditionally_idempotent :
    trimURL "/a/b/" = "a/b" ∧ trimURL "a/b" = "a/b" ∧
    ∀ u : String, ¬ (['/', '/'] <+: u.data) → ¬ (['/', '/'] <:+ u.data) →
      trimURL (trimURL u) = trimURL u := by
  refine ⟨by decide, by decide, fun u h1 h2 => ?_⟩
  show String.mk (trimURLChars (trimURLChars u.data)) = String.mk (trimURLChars u.data)
  exact congrArg String.mk (trimURLChars_id_of_no_slash
    (trimURLChars_head? u.data h1) (trimURLChars_getLast? u.data h2))

/-- C5 witness: idempotence instantiated at `"/a/b/"`, whose hypotheses hold
concretely. -/
theorem trimURL_conditionally_idempotent_witness :
    trimURL (trimURL "/a/b/") = trimURL "/a/b/" :=
  trimURL_strips_once_and_conditionally_idempotent.2.2 "/a/b/" (by decide) (by decide)

/-- C6: when `createSession` is called with a configuration that specifies no
`timeToLive`, the created session's `expiryDate` is `NaN`
(`Date.now() + undefined`), not the creation time: the source's default-TTL
guard tests `!(newSessionInfo)` — the always-truthy argument object — instead
of `!(newSessionInfo.timeToLive)`, contradicting its own comment
"If no session TTL was specified, default to 0."  Such a session is never
eligible for expiry (`NaN` comparisons are false), the opposite of the
claimed immediate eligibility. -/
theorem createSession_missing_ttl_gives_nan (st : MdsmState) (now : Int)
    (freshID : String) (sid sdata : Option String) :
    ((createSession st now freshID
        { sessionID := sid, timeToLive := none, sessionData := sdata }).2).expiryDate =
      JSNum.nan ∧
    ((createSession st now freshID
        { sessionID := sid, timeToLive := none, sessionData := sdata }).2).expiryDate ≠
      JSNum.num now := by
  constructor
  · rfl
  · intro h
    exact JSNum.noConfusion h

/-- C7 counterexample: `renewSession` with a `sessionID` matching no stored
session raises an uncaught `TypeError` (`sessions.filter(...)[0]` is
`undefined` and `extendSessionLife` is invoked on it) rather than reporting a
typed `SessionNotFoundError` to the caller — evaluated at a concrete empty
state. -/
theorem renewSession_unknown_session_crashes :
    renewSession stEmpty "nosuch" 5000 = .error JSErr.typeError := rfl

/-- C7 (amended): `renewSession(sessionID, extraMs)` with a `sessionID`
belonging to a stored session extends that session's `expiryDate` by exactly
`extraMs` milliseconds (the first stored session with that ID); with a
`sessionID` matching no stored session it raises an uncaught `TypeError` (an
unhandled crash), not a typed `SessionNotFoundError`. -/
theorem renewSession_extends_or_crashes (st : MdsmState) (sid : String) (extra : Int) :
    (st.sessions.any (fun s => s.sessionID == sid) = false →
      renewSession st sid extra = .error JSErr.typeError) ∧
    (∀ pre s post, st.sessions = pre ++ s :: post → s.sessionID = sid →
      (∀ t ∈ pre, t.sessionID ≠ sid) →
      renewSession st sid extra = .ok { st with sessions :=
        pre ++ { s with expiryDate := s.expiryDate.add (.num extra) } :: post }) := by
  constructor
  · intro hnone
    simp only [renewSession, hnone, Bool.false_eq_true, if_false]
  · intro pre s post hsplit hs hpre
    have hany : st.sessions.any (fun t => t.sessionID == sid) = true := by
      rw [hsplit]
      simp [hs]
    simp only [renewSession, hany, if_true]
    rw [hsplit, renewFirst_split pre s post sid extra hs hpre]
    rfl

/-- C7 witness: renewing the concrete stored session `seEx` by 7 ms yields
the state in which exactly that session's `expiryDate` grew by 7. -/
theorem renewSession_extends_witness :
    renewSession stEx "S1" 7 = .ok { stEx with sessions :=
      [{ seEx with expiryDate := seEx.expiryDate.add (.num 7) }] } :=
  (renewSession_extends_or_crashes stEx "S1" 7).2 [] seEx [] rfl rfl
    (by intro t ht; simp at ht)

/-- C8: the claim says `Session.removeClient(clientID)` deletes the matching
client when present and is a no-op otherwise. The code contradicts its own
"Delete a client" comments: when a matching client is present it executes
`clientList.splice(...)` on the bare undeclared identifier `clientList`
(the field is `this.clientList`), raising an uncaught `ReferenceError` and
deleting nothing; only the no-op half holds. Evaluated at the concrete
session `seEx` holding client `"c1"`. -/
theorem removeClient_present_crashes_absent_noop :
    Session.removeClient seEx "c1" = .error JSErr.referenceError ∧
    Session.removeClient seEx "zz" = .ok seEx :=
  ⟨rfl, rfl⟩

/-- C9 counterexample: `Session.processRequest` on a decrypted payload whose
`clientID` matches no client of the session raises an uncaught `TypeError`
(`client` is `undefined` and `client.clientClass` is read in the
authorization guard) instead of reporting a typed `UnknownClientError` —
evaluated at a concrete session, matched endpoint, and unknown-client
payload. No handler is invoked. -/
theorem processRequest_unknown_client_crash_example :
    Session.processRequest seEx "/api/doSomething1/" cookieUnknown =
      { handlerCalled := none, nextError := none, outcome := .error JSErr.typeError } :=
  rfl

/-- C9 (amended): when the decrypted payload's `clientID` matches no client
currently in the session (the client lookup resolves to `undefined`),
`Session.processRequest` raises an uncaught `TypeError` — a crash reaching
the caller, not a typed `UnknownClientError` — and no endpoint handler is
invoked. -/
theorem processRequest_unknown_client_crashes
    (se : Session) (reqUrl mdsmCookie : String)
    (hclient : Session.lookupClient se.clientList mdsmCookie = .ok none) :
    Session.processRequest se reqUrl mdsmCookie =
      { handlerCalled := none, nextError := none, outcome := .error JSErr.typeError } := by
  simp only [Session.processRequest, hclient]
  cases h : (se.validEndpoints.filter (fun ep => ep.url == trimURL reqUrl)).head? <;>
    simp [h]

/-- C9 witness: the unknown-client payload against a URL matching no endpoint
also crashes with a `TypeError` and no handler invocation. -/
theorem processRequest_unknown_client_crashes_witness :
    Session.processRequest seEx "/api/doesNotExist/" cookieUnknown =
      { handlerCalled := none, nextError := none, outcome := .error JSErr.typeError } :=
  processRequest_unknown_client_crashes seEx "/api/doesNotExist/" cookieUnknown rfl

/-- C10: on every invocation of `Session.processRequest` that resolves a
client and an endpoint, the response is unconditionally ended with the body
"Your session is [sessionID]. Your MDSM cookie is [mdsmCookie]" — containing
the plaintext session ID and the decrypted cookie payload — both when
authorization succeeds (after the handler call) and when the client's class
is not allowed; and the `next` error callback is never invoked, so in the
unauthorized case no error result is reported to the caller. -/
theorem processRequest_always_ends_response
    (se : Session) (reqUrl mdsmCookie : String) (c : Client) (ep : Endpoint)
    (hclient : Session.lookupClient se.clientList mdsmCookie = .ok (some c))
    (hep : (se.validEndpoints.filter (fun e => e.url == trimURL reqUrl)).head? =
      some ep) :
    (Session.processRequest se reqUrl mdsmCookie).outcome =
      .ok (responseBody se.sessionID mdsmCookie) ∧
    (Session.processRequest se reqUrl mdsmCookie).nextError = none ∧
    (ep.allowedClassTypes.contains c.clientClass = false →
      (Session.processRequest se reqUrl mdsmCookie).handlerCalled = none) := by
  simp only [Session.processRequest, hclient, hep]
  by_cases hct : c.clientClass ∈ ep.allowedClassTypes
  · simp [hct]
  · simp [hct]

/-- C10 witness: the authorized concrete request ends the response with the
session ID and cookie in the body and reports no error. -/
theorem processRequest_always_ends_response_witness :
    (Session.processRequest seEx "/api/doSomething1/" cookieEx).outcome =
      .ok (responseBody seEx.sessionID cookieEx) ∧
    (Session.processRequest seEx "/api/doSomething1/" cookieEx).nextError = none ∧
    (epA.allowedClassTypes.contains clA.clientClass = false →
      (Session.processRequest seEx "/api/doSomething1/" cookieEx).handlerCalled = none) :=
  processRequest_always_ends_response seEx "/api/doSomething1/" cookieEx clA epA
    rfl rfl
